import Mathlib

/-!
Verification development for the service resilience and orchestration layer
of the blank-ai demo editor: the TTL-bounded hint cache (`useHintCache`),
the telemetry / health registry (`TelemetryService`), the adaptive rate
limiter (`RateLimiter`), and the service lifecycle manager (`ServiceManager`).

Each component is shallowly embedded from the TypeScript source:
timestamps and latencies are rationals (JS `number`), counters are naturals,
`Map` objects are association lists in insertion order (a JS `Map` keeps the
original position of a key when its value is overwritten, and appends new
keys at the end), and `Date.now()` becomes an explicit `now` parameter.
-/

namespace BlankAI

/-! ## Result cache (`src/hooks/useHintCache.ts`) -/

/-- `CacheEntry<T>` from `useHintCache.ts`: `{data, timestamp}`. -/
structure CacheEntry (α : Type) where
  data : α
  timestamp : ℚ
  deriving Repr, DecidableEq

/-- A JS `Map<string, CacheEntry<T>>` in iteration (insertion) order:
the head of the list is the oldest-inserted key, `map.keys().next().value`. -/
abbrev Cache (α : Type) := List (String × CacheEntry α)

/-- `CacheOptions` after merging with `DEFAULT_OPTIONS`: both fields are
present (`{...DEFAULT_OPTIONS, ...options}` supplies defaults), but the
source re-applies the default via `maxEntries || DEFAULT_OPTIONS.maxEntries!`
and `ttl || DEFAULT_OPTIONS.ttl!`, so a configured value of `0` is replaced
by the default at use sites. -/
structure CacheOptions where
  ttl : ℕ
  maxEntries : ℕ
  deriving Repr, DecidableEq

/-- The `ttl || DEFAULT_OPTIONS.ttl!` fallback (`0` is falsy in JS). -/
def effTtl (o : CacheOptions) : ℕ :=
  if o.ttl = 0 then 300000 else o.ttl

/-- The `maxEntries || DEFAULT_OPTIONS.maxEntries!` fallback. -/
def effMax (o : CacheOptions) : ℕ :=
  if o.maxEntries = 0 then 100 else o.maxEntries

/-- `map.get(k)`: first (and, on reachable caches, only) binding of `k`. -/
def jsLookup (c : Cache α) (k : String) : Option (CacheEntry α) :=
  match c with
  | [] => none
  | (k', e) :: t => if k' = k then some e else jsLookup t k

/-- `map.set(k, e)`: overwrite in place if `k` is bound (keeping its
position in iteration order), else append at the end. -/
def jsSet (c : Cache α) (k : String) (e : CacheEntry α) : Cache α :=
  match c with
  | [] => [(k, e)]
  | (k', e') :: t => if k' = k then (k, e) :: t else (k', e') :: jsSet t k e

/-- `map.delete(k)`: remove the binding of `k` (first occurrence). -/
def jsDelete (c : Cache α) (k : String) : Cache α :=
  match c with
  | [] => []
  | (k', e') :: t => if k' = k then t else (k', e') :: jsDelete t k

/-- `set(key, data)` from `useHintCache.ts`: if `cache.size >= maxEntries`
(effective), delete `cache.keys().next().value` (the oldest-inserted key;
a no-op on an empty map), then insert `{data, timestamp: now}`. -/
def cacheSet (o : CacheOptions) (now : ℚ) (c : Cache α) (k : String) (d : α) :
    Cache α :=
  jsSet
    (if effMax o ≤ c.length then
      match c with
      | [] => []
      | (k0, e0) :: t => jsDelete ((k0, e0) :: t) k0
    else c)
    k ⟨d, now⟩

/-- `get(key)` from `useHintCache.ts`: miss on absent key; if
`now - entry.timestamp > ttl` (effective), delete the entry and miss;
otherwise hit, returning the data without touching the entry. -/
def cacheGet (o : CacheOptions) (now : ℚ) (c : Cache α) (k : String) :
    Option α × Cache α :=
  match jsLookup c k with
  | none => (none, c)
  | some e => if (effTtl o : ℚ) < now - e.timestamp
      then (none, jsDelete c k)
      else (some e.data, c)

/-- `invalidate(key)`. -/
def cacheInvalidate (c : Cache α) (k : String) : Cache α := jsDelete c k

/-- `clear()`. -/
def cacheClear (_c : Cache α) : Cache α := []

/-- One operation against the hint cache, with its `Date.now()` value. -/
inductive CacheOp (α : Type) where
  | set (now : ℚ) (k : String) (d : α)
  | get (now : ℚ) (k : String)
  | inval (k : String)
  | clear
  deriving Repr

/-- State effect of one cache operation. -/
def applyCacheOp (o : CacheOptions) (c : Cache α) : CacheOp α → Cache α
  | .set now k d => cacheSet o now c k d
  | .get now k => (cacheGet o now c k).2
  | .inval k => cacheInvalidate c k
  | .clear => cacheClear c

/-- Run a sequence of cache operations. -/
def runCacheOps (o : CacheOptions) (c : Cache α) : List (CacheOp α) → Cache α
  | [] => c
  | op :: ops => runCacheOps o (applyCacheOp o c op) ops

/-! ## Telemetry / health registry (`src/utils/telemetry.ts`) -/

/-- `ServiceMetrics`: per-service counters and incremental latency mean.
`lastError` holds an opaque error identifier; `lastSuccessful` is the
`Date.now()` of the latest successful call. -/
structure ServiceMetrics where
  totalCalls : ℕ
  successfulCalls : ℕ
  failedCalls : ℕ
  averageLatency : ℚ
  lastError : Option ℕ
  lastSuccessful : Option ℚ
  deriving Repr, DecidableEq

/-- `initializeMetrics()`: all counters zero, no last error or success. -/
def initMetrics : ServiceMetrics :=
  { totalCalls := 0, successfulCalls := 0, failedCalls := 0
    averageLatency := 0, lastError := none, lastSuccessful := none }

/-- One `recordServiceCall(service, startTime, success, error?)` invocation,
with the `Date.now()` observed inside the call. -/
structure CallEvent where
  now : ℚ
  startTime : ℚ
  success : Bool
  errId : ℕ
  deriving Repr, DecidableEq

/-- `TelemetryService.recordServiceCall`: `duration = now - startTime`;
`totalCalls++`; on success `successfulCalls++` and `lastSuccessful = now`,
on failure `failedCalls++` and `lastError = error`; then
`averageLatency = (averageLatency * (totalCalls - 1) + duration) / totalCalls`
with the already-incremented `totalCalls`. -/
def recordServiceCall (e : CallEvent) (m : ServiceMetrics) : ServiceMetrics :=
  let duration := e.now - e.startTime
  let total := m.totalCalls + 1
  let m1 := if e.success then
      { m with successfulCalls := m.successfulCalls + 1
               lastSuccessful := some e.now }
    else
      { m with failedCalls := m.failedCalls + 1
               lastError := some e.errId }
  { m1 with totalCalls := total
            averageLatency :=
              (m.averageLatency * ((total : ℚ) - 1) + duration) / (total : ℚ) }

/-- Metrics of one service after a sequence of recorded calls, starting
from `initializeMetrics()`. -/
def recordAll (l : List CallEvent) : ServiceMetrics :=
  l.foldl (fun m e => recordServiceCall e m) initMetrics

/-- Sum of the durations `now - startTime` of a sequence of calls. -/
def sumDur (l : List CallEvent) : ℚ :=
  (l.map (fun e => e.now - e.startTime)).sum

/-- `TelemetryService.isServiceHealthy`, evaluated at time `now`:
`hasRecentSuccess && failureRate < 0.5 && acceptableLatency` where
`hasRecentSuccess = !lastSuccessful || now - lastSuccessful < 5min`,
`failureRate = failedCalls / max(totalCalls, 1)` and
`acceptableLatency = averageLatency < 5000`. -/
def isServiceHealthy (now : ℚ) (m : ServiceMetrics) : Bool :=
  let hasRecentSuccess :=
    match m.lastSuccessful with
    | none => true
    | some t => decide (now - t < 300000)
  let failureRate : ℚ := (m.failedCalls : ℚ) / ((max m.totalCalls 1 : ℕ) : ℚ)
  hasRecentSuccess && decide (failureRate < 1/2) && decide (m.averageLatency < 5000)

/-- The health predicate exactly as the specification words it (for the
comparison with `isServiceHealthy`): (1) either no `lastSuccessfulAt` is set
and `totalCalls == 0`, or `now - lastSuccessfulAt < 5min`; (2)
`failedCalls / max(totalCalls, 1) < 0.5`; (3) `averageLatencyMs < 5000`. -/
def healthySpec (now : ℚ) (m : ServiceMetrics) : Prop :=
  ((m.lastSuccessful = none ∧ m.totalCalls = 0) ∨
    (∃ t, m.lastSuccessful = some t ∧ now - t < 300000)) ∧
  (m.failedCalls : ℚ) / ((max m.totalCalls 1 : ℕ) : ℚ) < 1/2 ∧
  m.averageLatency < 5000

/-! ## Adaptive rate limiter (`RateLimiter`, `src/unnamed/part_008`) -/

/-- `RateLimitConfig`: integral fields (`cooldownPeriod` in milliseconds). -/
structure RateLimitConfig where
  maxRequestsPerMinute : ℕ
  burstLimit : ℕ
  cooldownPeriod : ℕ
  deriving Repr, DecidableEq

/-- `DEFAULT_LIMITS.openai`. -/
def openaiDefault : RateLimitConfig :=
  { maxRequestsPerMinute := 60, burstLimit := 10, cooldownPeriod := 60000 }

/-- `DEFAULT_LIMITS.vectorStore`. -/
def vectorStoreDefault : RateLimitConfig :=
  { maxRequestsPerMinute := 100, burstLimit := 20, cooldownPeriod := 30000 }

/-- `DEFAULT_LIMITS.documentation`. -/
def documentationDefault : RateLimitConfig :=
  { maxRequestsPerMinute := 120, burstLimit := 30, cooldownPeriod := 15000 }

/-- `RateLimitState`. `cooldownUntil` is rational because the burst branch
sets it to `now + cooldownPeriod / 2` with JS float division. -/
structure RateLimitState where
  requests : ℕ
  lastReset : ℚ
  burstCount : ℕ
  lastBurstReset : ℚ
  isThrottled : Bool
  cooldownUntil : ℚ
  deriving Repr, DecidableEq

/-- `createInitialState()` at creation time `now`. -/
def createInitialState (now : ℚ) : RateLimitState :=
  { requests := 0, lastReset := now, burstCount := 0, lastBurstReset := now
    isThrottled := false, cooldownUntil := 0 }

/-- The health snapshot `adjustLimits` reads through
`serviceManager.getServiceHealth(service)`: the computed `healthy` flag and
`metrics.averageLatency`. -/
structure HealthSnapshot where
  healthy : Bool
  averageLatency : ℚ
  deriving Repr, DecidableEq

/-- `RateLimiter.resetCounters(service)` at time `now`: reset the minute
counter after 60s, the burst counter after 1s, and clear the throttle once
`now >= cooldownUntil`. -/
def resetCounters (now : ℚ) (s : RateLimitState) : RateLimitState :=
  let s1 := if 60000 ≤ now - s.lastReset then
      { s with requests := 0, lastReset := now } else s
  let s2 := if 1000 ≤ now - s1.lastBurstReset then
      { s1 with burstCount := 0, lastBurstReset := now } else s1
  if s2.isThrottled ∧ s2.cooldownUntil ≤ now then
    { s2 with isThrottled := false }
  else s2

/-- `RateLimiter.adjustLimits(service)`: when the service is unhealthy, or
healthy with `averageLatency > 2000`, the stored limits are scaled from the
*current* stored limits (`Math.floor(currentLimit.x * reduction)` with
`reduction = healthy ? 0.8 : 0.5`, and `cooldownPeriod * 2`); otherwise
they are restored to the base (`DEFAULT_LIMITS`) config.  `Math.floor` of an
integer times the double `0.5` (exact) or `0.8` (whose rounding error is
below half an ulp of the product) equals the natural floor division used
here. -/
def adjustLimits (h : HealthSnapshot) (base current : RateLimitConfig) :
    RateLimitConfig :=
  if ¬h.healthy ∨ 2000 < h.averageLatency then
    if h.healthy then
      { maxRequestsPerMinute := current.maxRequestsPerMinute * 4 / 5
        burstLimit := current.burstLimit * 4 / 5
        cooldownPeriod := current.cooldownPeriod * 2 }
    else
      { maxRequestsPerMinute := current.maxRequestsPerMinute / 2
        burstLimit := current.burstLimit / 2
        cooldownPeriod := current.cooldownPeriod * 2 }
  else base

/-- `RateLimiter.checkRateLimit(service)` at time `now`, given the current
health snapshot: returns the admit decision, the new stored limits and the
new per-service state. -/
def checkRateLimit (base : RateLimitConfig) (h : HealthSnapshot) (now : ℚ)
    (current : RateLimitConfig) (s : RateLimitState) :
    Bool × RateLimitConfig × RateLimitState :=
  let s1 := resetCounters now s
  let limits := adjustLimits h base current
  if s1.isThrottled then (false, limits, s1)
  else if limits.maxRequestsPerMinute ≤ s1.requests then
    (false, limits, { s1 with isThrottled := true
                              cooldownUntil := now + (limits.cooldownPeriod : ℚ) })
  else if limits.burstLimit ≤ s1.burstCount then
    (false, limits, { s1 with isThrottled := true
                              cooldownUntil := now + (limits.cooldownPeriod : ℚ) / 2 })
  else
    (true, limits, { s1 with requests := s1.requests + 1
                             burstCount := s1.burstCount + 1 })

/-- The snapshot record returned by `RateLimiter.getRateLimitInfo`. -/
structure RateLimitInfo where
  currentRequests : ℕ
  maxRequests : ℕ
  burstCount : ℕ
  burstLimit : ℕ
  isThrottled : Bool
  cooldownRemaining : ℚ
  resetIn : ℚ
  deriving Repr, DecidableEq

/-- `RateLimiter.getRateLimitInfo(service)` at time `now`: it first runs
`resetCounters(service)` (mutating the stored state) and then reads the
snapshot; the second component is the state the limiter is left with. -/
def getRateLimitInfo (current : RateLimitConfig) (now : ℚ)
    (s : RateLimitState) : RateLimitInfo × RateLimitState :=
  let s1 := resetCounters now s
  (⟨s1.requests, current.maxRequestsPerMinute, s1.burstCount,
    current.burstLimit, s1.isThrottled,
    max 0 (s1.cooldownUntil - now), 60000 - (now - s1.lastReset)⟩, s1)

/-- `n` consecutive `checkRateLimit` calls at time `now` under a fixed
health snapshot, starting from the stored limits `current` and state `s`:
returns the stored limits and state after the calls. -/
def checkSeq (base : RateLimitConfig) (h : HealthSnapshot) (now : ℚ) :
    ℕ → RateLimitConfig → RateLimitState → RateLimitConfig × RateLimitState
  | 0, current, s => (current, s)
  | n + 1, current, s =>
      let r := checkRateLimit base h now current s
      checkSeq base h now n r.2.1 r.2.2

/-! ## Service lifecycle manager (`ServiceManager`) -/

/-- `ServiceType`: the closed set of dependencies. -/
inductive Svc where
  | vectorStore
  | documentation
  | openai
  deriving Repr, DecidableEq

/-- `ServiceState`: per-dependency readiness flags, the shared `retryCount`
and the last initialization error. -/
structure SMState where
  vectorStore : Bool
  documentation : Bool
  retryCount : ℕ
  lastError : Option ℕ
  deriving Repr, DecidableEq

/-- The fresh `ServiceState` the manager is constructed with (and reset to
by `shutdown()`): `{vectorStore: false, documentation: false, retryCount: 0}`. -/
def smInitial : SMState :=
  { vectorStore := false, documentation := false, retryCount := 0
    lastError := none }

/-- `ServiceManager.maxRetries`. -/
def maxRetries : ℕ := 3

/-- `initializeVectorStore()`: on success of the `createVectorStore`
collaborator set the readiness flag; on failure clear it, record the error
and rethrow.  `ok` is the collaborator's outcome, `eid` its error id. -/
def initVectorStore (s : SMState) (ok : Bool) (eid : ℕ) : SMState × Bool :=
  if ok then ({ s with vectorStore := true }, true)
  else ({ s with vectorStore := false, lastError := some eid }, false)

/-- `initializeDocumentation()`, analogous. -/
def initDocumentation (s : SMState) (ok : Bool) (eid : ℕ) : SMState × Bool :=
  if ok then ({ s with documentation := true }, true)
  else ({ s with documentation := false, lastError := some eid }, false)

/-- Result of `ServiceManager.initialize()`: the lifecycle state it leaves
behind, whether the periodic health sweep was started, and whether the
error of a failed dependency propagated to the caller. -/
structure InitResult where
  state : SMState
  sweepStarted : Bool
  errored : Bool
  deriving Repr, DecidableEq

/-- `ServiceManager.initialize()`: `initializeVectorStore` then
`initializeDocumentation`, sequentially; the first failure aborts the
sequence and rethrows; `startHealthCheck()` runs only after both succeed.
`vsOk`/`docOk` are the outcomes of the two init collaborators. -/
def initServices (s : SMState) (vsOk docOk : Bool) : InitResult :=
  let r1 := initVectorStore s vsOk 0
  if r1.2 then
    let r2 := initDocumentation r1.1 docOk 1
    if r2.2 then { state := r2.1, sweepStarted := true, errored := false }
    else { state := r2.1, sweepStarted := false, errored := true }
  else { state := r1.1, sweepStarted := false, errored := true }

/-- `ServiceManager.attemptServiceRecovery(service)`: if
`retryCount >= maxRetries`, log and return (second component `false`: no
recovery attempt, the init collaborator is not invoked).  Otherwise
increment `retryCount` and re-invoke the service's init collaborator
(outcome `ok`): on success reset `retryCount` to 0 (after the collaborator
set the readiness flag); on failure keep the incremented `retryCount`
(the flag was cleared by the failing initializer; for `openai` no flag
exists). -/
def attemptServiceRecovery (s : SMState) (svc : Svc) (ok : Bool) :
    SMState × Bool :=
  if maxRetries ≤ s.retryCount then (s, false)
  else
    let s1 := { s with retryCount := s.retryCount + 1 }
    let s2 :=
      match svc with
      | .vectorStore => (initVectorStore s1 ok 2).1
      | .documentation => (initDocumentation s1 ok 3).1
      | .openai => s1
    if ok then ({ s2 with retryCount := 0 }, true) else (s2, true)

/-! ## Process-wide state and `shutdown()` (`ServiceManager.shutdown`) -/

/-- A `TelemetryEvent` from `telemetry.ts` (`kind`: 0 error, 1 warning,
2 info; `svcTag`/`msgTag` are opaque identifiers). -/
structure TelemetryEvent where
  timestamp : ℚ
  kind : ℕ
  svcTag : ℕ
  msgTag : ℕ
  deriving Repr, DecidableEq

/-- `TelemetryService.logEvent`: `events.unshift(event)`, then drop the
oldest (last) event if the buffer exceeds `maxEvents = 1000`. -/
def logEvent (ev : TelemetryEvent) (events : List TelemetryEvent) :
    List TelemetryEvent :=
  let es := ev :: events
  if 1000 < es.length then es.dropLast else es

/-- The observable process-wide state of the singletons: the lifecycle
manager's `ServiceState` and health-sweep interval, the telemetry metrics
per service and event buffer, and the rate limiter's stored limits and
per-service state. -/
structure ProcState where
  sm : SMState
  sweepActive : Bool
  metrics : Svc → ServiceMetrics
  limiterLimits : Svc → RateLimitConfig
  limiterState : Svc → RateLimitState
  events : List TelemetryEvent

/-- `ServiceManager.shutdown()` at time `now`: clear the health-check
interval, replace the manager's state with a fresh
`{vectorStore: false, documentation: false, retryCount: 0}`, and log an
info event ("Services shut down") — it touches nothing owned by the
telemetry registry or the rate limiter. -/
def shutdownProc (now : ℚ) (p : ProcState) : ProcState :=
  { p with sm := smInitial
           sweepActive := false
           events := logEvent ⟨now, 2, 1, 0⟩ p.events }

/-! ## Cache lemmas -/

theorem jsSet_length_le (c : Cache α) (k : String) (e : CacheEntry α) :
    (jsSet c k e).length ≤ c.length + 1 := by
  induction c with
  | nil => simp [jsSet]
  | cons he t ih =>
      obtain ⟨k', e'⟩ := he
      by_cases hk : k' = k <;> simp [jsSet, hk] <;> omega

theorem jsSet_length_mem (c : Cache α) (k : String) (e : CacheEntry α)
    (h : k ∈ c.map Prod.fst) : (jsSet c k e).length = c.length := by
  induction c with
  | nil => simp at h
  | cons he t ih =>
      obtain ⟨k', e'⟩ := he
      by_cases hk : k' = k
      · simp [jsSet, hk]
      · simp only [List.map_cons, List.mem_cons] at h
        rcases h with h | h
        · exact absurd h.symm hk
        · simp [jsSet, hk, ih h]

theorem jsDelete_length_le (c : Cache α) (k : String) :
    (jsDelete c k).length ≤ c.length := by
  induction c with
  | nil => simp [jsDelete]
  | cons he t ih =>
      obtain ⟨k', e'⟩ := he
      by_cases hk : k' = k <;> simp [jsDelete, hk] <;> omega

theorem jsLookup_jsSet_self (c : Cache α) (k : String) (e : CacheEntry α) :
    jsLookup (jsSet c k e) k = some e := by
  induction c with
  | nil => simp [jsSet, jsLookup]
  | cons he t ih =>
      obtain ⟨k', e'⟩ := he
      by_cases hk : k' = k <;> simp [jsSet, jsLookup, hk, ih]

theorem jsLookup_jsSet_ne (c : Cache α) (k k' : String) (e : CacheEntry α)
    (h : k' ≠ k) : jsLookup (jsSet c k e) k' = jsLookup c k' := by
  have hne : ¬k = k' := fun hh => h hh.symm
  induction c with
  | nil => simp [jsSet, jsLookup, hne]
  | cons hd t ih =>
      obtain ⟨k0, e0⟩ := hd
      by_cases hk : k0 = k
      · subst hk
        simp [jsSet, jsLookup, hne]
      · simp [jsSet, jsLookup, hk, ih]

theorem jsLookup_eq_none_of_not_mem (c : Cache α) (k : String)
    (h : k ∉ c.map Prod.fst) : jsLookup c k = none := by
  induction c with
  | nil => simp [jsLookup]
  | cons hd t ih =>
      obtain ⟨k0, e0⟩ := hd
      simp only [List.map_cons, List.mem_cons] at h
      push_neg at h
      have hne : ¬k0 = k := fun hh => h.1 hh.symm
      simp [jsLookup, hne, ih h.2]

theorem cacheSet_evicts_head (o : CacheOptions) (now : ℚ) (c : Cache α)
    (k : String) (d : α) (h : effMax o ≤ c.length) :
    cacheSet o now c k d = jsSet c.tail k ⟨d, now⟩ := by
  have h1 : 1 ≤ effMax o := by
    unfold effMax; split <;> omega
  match c with
  | [] => simp at h; omega
  | (k0, e0) :: t =>
      have h' : effMax o ≤ t.length + 1 := by simpa using h
      simp [cacheSet, h', jsDelete]

theorem cacheSet_length (o : CacheOptions) (now : ℚ) (c : Cache α)
    (k : String) (d : α) (h : c.length ≤ effMax o) :
    (cacheSet o now c k d).length ≤ effMax o := by
  by_cases hc : effMax o ≤ c.length
  · rw [cacheSet_evicts_head o now c k d hc]
    have h2 : c.length = effMax o := le_antisymm h hc
    have h1 : 1 ≤ effMax o := by
      unfold effMax; split <;> omega
    have h3 := jsSet_length_le c.tail k (⟨d, now⟩ : CacheEntry α)
    have h4 : c.tail.length + 1 ≤ c.length := by
      match c with
      | [] => simp at h2; omega
      | x :: t => simp
    omega
  · simp only [cacheSet, if_neg hc]
    have h3 := jsSet_length_le c k (⟨d, now⟩ : CacheEntry α)
    omega

theorem runCacheOps_length (o : CacheOptions) (ops : List (CacheOp α))
    (c : Cache α) (h : c.length ≤ effMax o) :
    (runCacheOps o c ops).length ≤ effMax o := by
  induction ops generalizing c with
  | nil => simpa [runCacheOps] using h
  | cons op ops ih =>
      apply ih
      match op with
      | .set now k d => exact cacheSet_length o now c k d h
      | .get now k =>
          simp only [applyCacheOp, cacheGet]
          match hl : jsLookup c k with
          | none => simpa using h
          | some e =>
              simp only
              split
              · have := jsDelete_length_le c k
                simpa using le_trans this h
              · simpa using h
      | .inval k =>
          have := jsDelete_length_le c k
          simpa [applyCacheOp, cacheInvalidate] using le_trans this h
      | .clear => simp [applyCacheOp, cacheClear]

/-- C6 (counterexample): with the configuration `{ttl: 0, maxEntries: 0}`
the claim fails: a single `set` on an empty cache leaves one entry, so the
size exceeds `maxEntries = 0` (the `maxEntries || 100` fallback silently
replaces 0 by 100), and a `get` of an entry that is 5 ms old — older than
`ttlMs = 0` — still returns a hit instead of removing it (the
`ttl || 300000` fallback replaces 0 by 300000). -/
theorem c6_zero_options_counterexample :
    (cacheSet ⟨0, 0⟩ 0 ([] : Cache ℕ) "a" 1).length = 1 ∧
    ¬(cacheSet ⟨0, 0⟩ 0 ([] : Cache ℕ) "a" 1).length ≤ 0 ∧
    (cacheGet ⟨0, 0⟩ 5 ([("a", ⟨1, 0⟩)] : Cache ℕ) "a").1 = some 1 ∧
    (cacheGet ⟨0, 0⟩ 5 ([("a", ⟨1, 0⟩)] : Cache ℕ) "a").2 = [("a", ⟨1, 0⟩)] := by
  refine ⟨rfl, by decide, ?_, ?_⟩ <;> norm_num [cacheGet, jsLookup, effTtl]

/-- C6 (amended): for every cache whose configured `ttlMs` and `maxEntries`
are at least 1 (so that the `x || default` fallbacks are the identity):
(1) starting from the empty cache, the size after any sequence of
set/get/invalidate/clear operations never exceeds `maxEntries`;
(2) a `set` performed when the size is at least `maxEntries` drops the
oldest-inserted (head) entry and then inserts the new entry;
(3) a `get` of a key whose entry is strictly older than `ttlMs` removes the
entry and returns a miss;
(4) a `get` that hits returns the stored data and leaves the cache — in
particular the entry's insertion timestamp — completely unchanged. -/
theorem c6_cache_bounds_and_ttl {α : Type} (o : CacheOptions)
    (ht : 1 ≤ o.ttl) (hm : 1 ≤ o.maxEntries) :
    (∀ ops : List (CacheOp α), (runCacheOps o [] ops).length ≤ o.maxEntries) ∧
    (∀ (c : Cache α) (now : ℚ) (k : String) (d : α), o.maxEntries ≤ c.length →
      cacheSet o now c k d = jsSet c.tail k ⟨d, now⟩) ∧
    (∀ (c : Cache α) (now : ℚ) (k : String) (e : CacheEntry α),
      jsLookup c k = some e → (o.ttl : ℚ) < now - e.timestamp →
      cacheGet o now c k = (none, jsDelete c k)) ∧
    (∀ (c : Cache α) (now : ℚ) (k : String) (e : CacheEntry α),
      jsLookup c k = some e → now - e.timestamp ≤ (o.ttl : ℚ) →
      cacheGet o now c k = (some e.data, c)) := by
  have hmax : effMax o = o.maxEntries := by
    unfold effMax; split <;> omega
  have httl : effTtl o = o.ttl := by
    unfold effTtl; split <;> omega
  refine ⟨?_, ?_, ?_, ?_⟩
  · intro ops
    have := runCacheOps_length o ops [] (by simp)
    omega
  · intro c now k d hlen
    exact cacheSet_evicts_head o now c k d (hmax ▸ hlen)
  · intro c now k e hl hold
    have hc : (effTtl o : ℚ) < now - e.timestamp := by rw [httl]; exact hold
    simp only [cacheGet, hl]
    rw [if_pos hc]
  · intro c now k e hl hyoung
    have hc : ¬(effTtl o : ℚ) < now - e.timestamp := by
      rw [httl]; exact not_lt.mpr hyoung
    simp only [cacheGet, hl]
    rw [if_neg hc]

/-- C6 (witness): with `{ttl: 1000, maxEntries: 2}` and a full cache,
setting a fresh key evicts exactly the oldest-inserted entry `"a"`. -/
theorem c6_cache_bounds_and_ttl_witness :
    cacheSet ⟨1000, 2⟩ 10 ([("a", ⟨5, 0⟩), ("b", ⟨6, 1⟩)] : Cache ℕ) "c" 7 =
      [("b", ⟨6, 1⟩), ("c", ⟨7, 10⟩)] := by
  have h := (c6_cache_bounds_and_ttl (α := ℕ) ⟨1000, 2⟩ (by decide)
    (by decide)).2.1 [("a", ⟨5, 0⟩), ("b", ⟨6, 1⟩)] 10 "c" 7 (by decide)
  rw [h]
  rfl

/-- C10 (confirmed): at capacity, `set` of an already-present key still
evicts the oldest-inserted entry first: if the cache `(k0, e0) :: t` has
exactly `maxEntries` entries (with pairwise-distinct keys, as holds for a
JS `Map`), `k ≠ k0` and `k` is already bound in `t`, then after
`set(k, d)` the size has dropped to `maxEntries - 1`, the old head key `k0`
is gone, and `k` is bound to the fresh entry — an update at capacity is not
an in-place overwrite. -/
theorem c10_update_at_capacity_evicts {α : Type} (o : CacheOptions)
    (hm : 1 ≤ o.maxEntries) (k0 : String) (e0 : CacheEntry α)
    (t : Cache α) (k : String) (d : α) (now : ℚ)
    (hlen : ((k0, e0) :: t).length = o.maxEntries)
    (hk : k ≠ k0) (hmem : k ∈ t.map Prod.fst)
    (hnd : (((k0, e0) :: t).map Prod.fst).Nodup) :
    (cacheSet o now ((k0, e0) :: t) k d).length = o.maxEntries - 1 ∧
    jsLookup (cacheSet o now ((k0, e0) :: t) k d) k0 = none ∧
    jsLookup (cacheSet o now ((k0, e0) :: t) k d) k = some ⟨d, now⟩ := by
  have hmax : effMax o = o.maxEntries := by
    unfold effMax; split <;> omega
  have hev := cacheSet_evicts_head o now ((k0, e0) :: t) k d
    (by rw [hmax, hlen])
  rw [List.tail_cons] at hev
  have hk0 : k0 ∉ t.map Prod.fst := by
    simp only [List.map_cons, List.nodup_cons] at hnd
    exact hnd.1
  refine ⟨?_, ?_, ?_⟩
  · rw [hev, jsSet_length_mem t k _ hmem]
    simp at hlen
    omega
  · rw [hev, jsLookup_jsSet_ne t k k0 _ (fun hh => hk hh.symm)]
    exact jsLookup_eq_none_of_not_mem t k0 hk0
  · rw [hev]
    exact jsLookup_jsSet_self t k _

/-- C10 (witness): a cache `[a, b]` at capacity 2; updating the
already-present key `"b"` evicts `"a"` and shrinks the cache to one entry. -/
theorem c10_update_at_capacity_evicts_witness :
    (cacheSet ⟨1000, 2⟩ 3 ([("a", ⟨1, 0⟩), ("b", ⟨2, 0⟩)] : Cache ℕ) "b" 9).length
        = 2 - 1 ∧
    jsLookup (cacheSet ⟨1000, 2⟩ 3 ([("a", ⟨1, 0⟩), ("b", ⟨2, 0⟩)] : Cache ℕ) "b" 9)
        "a" = none ∧
    jsLookup (cacheSet ⟨1000, 2⟩ 3 ([("a", ⟨1, 0⟩), ("b", ⟨2, 0⟩)] : Cache ℕ) "b" 9)
        "b" = some ⟨9, 3⟩ :=
  c10_update_at_capacity_evicts ⟨1000, 2⟩ (by decide) "a" ⟨1, 0⟩
    [("b", ⟨2, 0⟩)] "b" 9 3 (by decide) (by decide) (by decide) (by decide)

/-! ## Telemetry lemmas -/

theorem recordServiceCall_totalCalls (e : CallEvent) (m : ServiceMetrics) :
    (recordServiceCall e m).totalCalls = m.totalCalls + 1 := by
  cases hs : e.success <;> simp [recordServiceCall, hs]

theorem recordServiceCall_successfulCalls (e : CallEvent) (m : ServiceMetrics) :
    (recordServiceCall e m).successfulCalls =
      m.successfulCalls + (if e.success then 1 else 0) := by
  cases hs : e.success <;> simp [recordServiceCall, hs]

theorem recordServiceCall_failedCalls (e : CallEvent) (m : ServiceMetrics) :
    (recordServiceCall e m).failedCalls =
      m.failedCalls + (if e.success then 0 else 1) := by
  cases hs : e.success <;> simp [recordServiceCall, hs]

theorem recordServiceCall_lastSuccessful (e : CallEvent) (m : ServiceMetrics) :
    (recordServiceCall e m).lastSuccessful =
      (if e.success then some e.now else m.lastSuccessful) := by
  cases hs : e.success <;> simp [recordServiceCall, hs]

theorem recordServiceCall_lastError (e : CallEvent) (m : ServiceMetrics) :
    (recordServiceCall e m).lastError =
      (if e.success then m.lastError else some e.errId) := by
  cases hs : e.success <;> simp [recordServiceCall, hs]

theorem recordServiceCall_avg (e : CallEvent) (m : ServiceMetrics) :
    (recordServiceCall e m).averageLatency =
      (m.averageLatency * (m.totalCalls : ℚ) + (e.now - e.startTime)) /
        ((m.totalCalls : ℚ) + 1) := by
  cases hs : e.success <;> simp [recordServiceCall, hs] <;> push_cast <;> ring_nf

theorem recordServiceCall_avg_mul (e : CallEvent) (m : ServiceMetrics) :
    (recordServiceCall e m).averageLatency * ((m.totalCalls : ℚ) + 1) =
      m.averageLatency * (m.totalCalls : ℚ) + (e.now - e.startTime) := by
  have hne : ((m.totalCalls : ℚ) + 1) ≠ 0 := by positivity
  rw [recordServiceCall_avg, div_mul_cancel₀ _ hne]

theorem foldRecord_stats (l : List CallEvent) (m : ServiceMetrics) :
    (l.foldl (fun m e => recordServiceCall e m) m).totalCalls
        = m.totalCalls + l.length ∧
    (l.foldl (fun m e => recordServiceCall e m) m).successfulCalls
        = m.successfulCalls + (l.filter (fun e => e.success)).length ∧
    (l.foldl (fun m e => recordServiceCall e m) m).failedCalls
        = m.failedCalls + (l.filter (fun e => !e.success)).length ∧
    (l.foldl (fun m e => recordServiceCall e m) m).averageLatency
          * ((m.totalCalls : ℚ) + (l.length : ℚ))
        = m.averageLatency * (m.totalCalls : ℚ) + sumDur l := by
  induction l generalizing m with
  | nil => simp [sumDur]
  | cons e t ih =>
      obtain ⟨ih1, ih2, ih3, ih4⟩ := ih (recordServiceCall e m)
      rw [recordServiceCall_totalCalls] at ih1 ih4
      rw [recordServiceCall_successfulCalls] at ih2
      rw [recordServiceCall_failedCalls] at ih3
      refine ⟨?_, ?_, ?_, ?_⟩
      · rw [List.foldl_cons, ih1]
        simp only [List.length_cons]
        omega
      · rw [List.foldl_cons, ih2]
        cases hs : e.success <;> simp [hs, List.filter_cons] <;> omega
      · rw [List.foldl_cons, ih3]
        cases hs : e.success <;> simp [hs, List.filter_cons] <;> omega
      · rw [List.foldl_cons]
        have hcast : ((m.totalCalls + 1 : ℕ) : ℚ) + (t.length : ℚ)
            = (m.totalCalls : ℚ) + ((e :: t).length : ℚ) := by
          simp only [List.length_cons]
          push_cast
          ring
        rw [hcast] at ih4
        rw [ih4]
        have hsum : sumDur (e :: t) = (e.now - e.startTime) + sumDur t := by
          simp [sumDur]
        have h5 : (recordServiceCall e m).averageLatency
              * (((m.totalCalls + 1 : ℕ) : ℚ))
            = m.averageLatency * (m.totalCalls : ℚ) + (e.now - e.startTime) := by
          push_cast
          exact recordServiceCall_avg_mul e m
        rw [h5, hsum]
        ring

theorem recordAll_totalCalls (l : List CallEvent) :
    (recordAll l).totalCalls = l.length := by
  have h := (foldRecord_stats l initMetrics).1
  simpa [recordAll, initMetrics] using h

theorem foldRecord_inv (l : List CallEvent) (m : ServiceMetrics)
    (h1 : m.totalCalls = m.successfulCalls + m.failedCalls)
    (h2 : m.lastSuccessful = none → m.successfulCalls = 0) :
    (l.foldl (fun m e => recordServiceCall e m) m).totalCalls
        = (l.foldl (fun m e => recordServiceCall e m) m).successfulCalls
          + (l.foldl (fun m e => recordServiceCall e m) m).failedCalls ∧
    ((l.foldl (fun m e => recordServiceCall e m) m).lastSuccessful = none →
      (l.foldl (fun m e => recordServiceCall e m) m).successfulCalls = 0) := by
  induction l generalizing m with
  | nil => exact ⟨h1, h2⟩
  | cons e t ih =>
      rw [List.foldl_cons]
      apply ih
      · rw [recordServiceCall_totalCalls, recordServiceCall_successfulCalls,
          recordServiceCall_failedCalls]
        cases e.success <;> simp <;> omega
      · rw [recordServiceCall_lastSuccessful, recordServiceCall_successfulCalls]
        cases hs : e.success <;> simp [hs]
        exact h2

/-- C2 (confirmed): for metrics reachable by any sequence of recorded calls,
`getServiceHealth(service).healthy` (i.e. `isServiceHealthy` at check time
`now`) is `true` exactly when the three spec conditions hold — (1) either no
`lastSuccessfulAt` and `totalCalls = 0`, or `now - lastSuccessfulAt < 5min`;
(2) `failedCalls / max(totalCalls, 1) < 0.5`; (3) `averageLatencyMs < 5000`.
Moreover a service with zero recorded calls is healthy, and one with
`totalCalls ≥ 1` and `failedCalls/totalCalls ≥ 0.5` is unhealthy regardless
of latency and recency. -/
theorem c2_healthy_iff_spec (l : List CallEvent) (now : ℚ) :
    (isServiceHealthy now (recordAll l) = true ↔ healthySpec now (recordAll l)) ∧
    isServiceHealthy now (recordAll []) = true ∧
    (1 ≤ (recordAll l).totalCalls →
      (1/2 : ℚ) ≤ ((recordAll l).failedCalls : ℚ) / ((recordAll l).totalCalls : ℚ) →
      isServiceHealthy now (recordAll l) = false) := by
  have hinv := foldRecord_inv l initMetrics (by simp [initMetrics])
    (fun _ => by simp [initMetrics])
  rw [show l.foldl (fun m e => recordServiceCall e m) initMetrics = recordAll l
    from rfl] at hinv
  set m := recordAll l with hm
  refine ⟨?_, ?_, ?_⟩
  · cases hls : m.lastSuccessful with
    | some t =>
        simp [isServiceHealthy, healthySpec, hls, Bool.and_eq_true,
          decide_eq_true_iff]
        tauto
    | none =>
        by_cases ht : m.totalCalls = 0
        · simp [isServiceHealthy, healthySpec, hls, ht, Bool.and_eq_true,
            decide_eq_true_iff]
        · have hs0 : m.successfulCalls = 0 := hinv.2 hls
          have hf : m.failedCalls = m.totalCalls := by omega
          have htot : 1 ≤ m.totalCalls := by omega
          have hmax : max m.totalCalls 1 = m.totalCalls := by omega
          have hrate : (m.failedCalls : ℚ) / ((max m.totalCalls 1 : ℕ) : ℚ) = 1 := by
            rw [hf, hmax]
            have hne : ((m.totalCalls : ℕ) : ℚ) ≠ 0 :=
              Nat.cast_ne_zero.mpr (by omega)
            exact div_self hne
          have hd : ¬((m.failedCalls : ℚ) / ((max m.totalCalls 1 : ℕ) : ℚ) < 1/2) := by
            rw [hrate]
            norm_num
          constructor
          · intro hh
            exfalso
            simp only [isServiceHealthy, hls, Bool.and_eq_true,
              decide_eq_true_iff] at hh
            exact hd hh.1.2
          · intro hh
            exfalso
            rcases hh.1 with ⟨_, h0⟩ | ⟨t, hsome, _⟩
            · exact ht h0
            · rw [hls] at hsome
              cases hsome
  · simp [recordAll, initMetrics, isServiceHealthy]
  · intro htot hrate
    have hmax : max m.totalCalls 1 = m.totalCalls := by omega
    have hd : decide ((m.failedCalls : ℚ) / ((m.totalCalls : ℕ) : ℚ) < 1/2) = false :=
      decide_eq_false (not_lt.mpr hrate)
    simp only [isServiceHealthy, hmax, hd, Bool.and_false, Bool.false_and]

/-- C2 (witness): one failed call at time 0 gives `totalCalls = 1`,
`failedCalls = 1`, failure rate 1 ≥ 0.5, so the service is unhealthy. -/
theorem c2_healthy_iff_spec_witness :
    isServiceHealthy 0 (recordAll [⟨0, 0, false, 0⟩]) = false := by
  apply (c2_healthy_iff_spec [⟨0, 0, false, 0⟩] 0).2.2
  · norm_num [recordAll, recordServiceCall, initMetrics]
  · norm_num [recordAll, recordServiceCall, initMetrics]

/-- C5 (confirmed): after any sequence of `N` recorded calls,
`averageLatencyMs` is exactly the arithmetic mean of the durations
`now - startTime` (exact in ℚ; the spec allows floating-point tolerance),
`totalCalls = N`, `successfulCalls`/`failedCalls` count the outcomes, and
each single call increments the matching counter and updates
`lastSuccessfulAt` (on success) or `lastError` (on failure). -/
theorem c5_record_mean (l : List CallEvent) :
    (recordAll l).totalCalls = l.length ∧
    (recordAll l).successfulCalls = (l.filter (fun e => e.success)).length ∧
    (recordAll l).failedCalls = (l.filter (fun e => !e.success)).length ∧
    (1 ≤ l.length → (recordAll l).averageLatency = sumDur l / (l.length : ℚ)) ∧
    (∀ (m : ServiceMetrics) (e : CallEvent),
      (recordServiceCall e m).totalCalls = m.totalCalls + 1 ∧
      (e.success = true →
        (recordServiceCall e m).successfulCalls = m.successfulCalls + 1 ∧
        (recordServiceCall e m).lastSuccessful = some e.now) ∧
      (e.success = false →
        (recordServiceCall e m).failedCalls = m.failedCalls + 1 ∧
        (recordServiceCall e m).lastError = some e.errId)) := by
  obtain ⟨h1, h2, h3, h4⟩ := foldRecord_stats l initMetrics
  simp only [initMetrics] at h1 h2 h3 h4
  refine ⟨by simpa [recordAll] using h1, by simpa [recordAll] using h2,
    by simpa [recordAll] using h3, ?_, ?_⟩
  · intro hlen
    have hne : ((l.length : ℕ) : ℚ) ≠ 0 :=
      Nat.cast_ne_zero.mpr (by omega)
    rw [eq_div_iff hne]
    simpa [recordAll] using h4
  · intro m e
    refine ⟨recordServiceCall_totalCalls e m, ?_, ?_⟩
    · intro hs
      rw [recordServiceCall_successfulCalls, recordServiceCall_lastSuccessful]
      simp [hs]
    · intro hs
      rw [recordServiceCall_failedCalls, recordServiceCall_lastError]
      simp [hs]

/-- C5 (witness): two calls with durations 2 and 7 give
`averageLatencyMs = 9/2`, their arithmetic mean. -/
theorem c5_record_mean_witness :
    (recordAll [⟨3, 1, true, 0⟩, ⟨7, 0, false, 5⟩]).averageLatency = 9/2 := by
  have h := (c5_record_mean [⟨3, 1, true, 0⟩, ⟨7, 0, false, 5⟩]).2.2.2.1
    (by decide)
  rw [h]
  norm_num [sumDur]

/-! ## Rate limiter lemmas -/

theorem resetCounters_requests (now : ℚ) (s : RateLimitState) :
    (resetCounters now s).requests
      = if 60000 ≤ now - s.lastReset then 0 else s.requests := by
  by_cases h1 : (60000:ℚ) ≤ now - s.lastReset <;>
  by_cases h2 : (1000:ℚ) ≤ now - s.lastBurstReset <;>
  by_cases h3 : s.isThrottled = true ∧ s.cooldownUntil ≤ now <;>
  simp [resetCounters, h1, h2, h3]

theorem resetCounters_lastReset (now : ℚ) (s : RateLimitState) :
    (resetCounters now s).lastReset
      = if 60000 ≤ now - s.lastReset then now else s.lastReset := by
  by_cases h1 : (60000:ℚ) ≤ now - s.lastReset <;>
  by_cases h2 : (1000:ℚ) ≤ now - s.lastBurstReset <;>
  by_cases h3 : s.isThrottled = true ∧ s.cooldownUntil ≤ now <;>
  simp [resetCounters, h1, h2, h3]

theorem resetCounters_burstCount (now : ℚ) (s : RateLimitState) :
    (resetCounters now s).burstCount
      = if 1000 ≤ now - s.lastBurstReset then 0 else s.burstCount := by
  by_cases h1 : (60000:ℚ) ≤ now - s.lastReset <;>
  by_cases h2 : (1000:ℚ) ≤ now - s.lastBurstReset <;>
  by_cases h3 : s.isThrottled = true ∧ s.cooldownUntil ≤ now <;>
  simp [resetCounters, h1, h2, h3]

theorem resetCounters_lastBurstReset (now : ℚ) (s : RateLimitState) :
    (resetCounters now s).lastBurstReset
      = if 1000 ≤ now - s.lastBurstReset then now else s.lastBurstReset := by
  by_cases h1 : (60000:ℚ) ≤ now - s.lastReset <;>
  by_cases h2 : (1000:ℚ) ≤ now - s.lastBurstReset <;>
  by_cases h3 : s.isThrottled = true ∧ s.cooldownUntil ≤ now <;>
  simp [resetCounters, h1, h2, h3]

theorem resetCounters_cooldownUntil (now : ℚ) (s : RateLimitState) :
    (resetCounters now s).cooldownUntil = s.cooldownUntil := by
  by_cases h1 : (60000:ℚ) ≤ now - s.lastReset <;>
  by_cases h2 : (1000:ℚ) ≤ now - s.lastBurstReset <;>
  by_cases h3 : s.isThrottled = true ∧ s.cooldownUntil ≤ now <;>
  simp [resetCounters, h1, h2, h3]

theorem resetCounters_isThrottled (now : ℚ) (s : RateLimitState) :
    (resetCounters now s).isThrottled
      = if s.isThrottled = true ∧ s.cooldownUntil ≤ now then false
        else s.isThrottled := by
  by_cases h1 : (60000:ℚ) ≤ now - s.lastReset <;>
  by_cases h2 : (1000:ℚ) ≤ now - s.lastBurstReset <;>
  by_cases h3 : s.isThrottled = true ∧ s.cooldownUntil ≤ now <;>
  simp [resetCounters, h1, h2, h3]

theorem rlstate_ext (a b : RateLimitState)
    (h1 : a.requests = b.requests) (h2 : a.lastReset = b.lastReset)
    (h3 : a.burstCount = b.burstCount)
    (h4 : a.lastBurstReset = b.lastBurstReset)
    (h5 : a.isThrottled = b.isThrottled)
    (h6 : a.cooldownUntil = b.cooldownUntil) : a = b := by
  cases a; cases b; simp_all

theorem resetCounters_idem (now : ℚ) (s : RateLimitState) :
    resetCounters now (resetCounters now s) = resetCounters now s := by
  have hA : ¬(60000:ℚ) ≤ now - (resetCounters now s).lastReset := by
    rw [resetCounters_lastReset]
    split_ifs with h
    · simp
    · simpa using h
  have hB : ¬(1000:ℚ) ≤ now - (resetCounters now s).lastBurstReset := by
    rw [resetCounters_lastBurstReset]
    split_ifs with h
    · simp
    · simpa using h
  have hC : ¬((resetCounters now s).isThrottled = true ∧
      (resetCounters now s).cooldownUntil ≤ now) := by
    rintro ⟨ht, hc⟩
    rw [resetCounters_isThrottled] at ht
    rw [resetCounters_cooldownUntil] at hc
    split_ifs at ht with h
    exact h ⟨ht, hc⟩
  apply rlstate_ext
  · rw [resetCounters_requests now (resetCounters now s), if_neg hA]
  · rw [resetCounters_lastReset now (resetCounters now s), if_neg hA]
  · rw [resetCounters_burstCount now (resetCounters now s), if_neg hB]
  · rw [resetCounters_lastBurstReset now (resetCounters now s), if_neg hB]
  · rw [resetCounters_isThrottled now (resetCounters now s), if_neg hC]
  · rw [resetCounters_cooldownUntil now (resetCounters now s)]

/-- C9 (counterexample): `getRateLimitInfo` is not read-only and can change
the outcome of a later `checkRateLimit`.  Base config `{1/min, burst 10,
cooldown 100000}`, healthy service, limiter created at t=0.  Path A: check
at t=0 (admitted), `getRateLimitInfo` at t=60000 (its embedded
`resetCounters` clears the window and moves `lastReset` to 60000), check at
t=60001 (admitted), check at t=120000 — the window (started 60000) has aged
60000ms, so it resets and the call is admitted.  Path B (identical but
without the info call): the check at t=60001 resets the window to 60001, so
at t=120000 only 59999ms have passed, `requests = 1 ≥ 1`, and the call is
denied.  The two paths return different outcomes for the same
`checkRateLimit` sequence. -/
theorem c9_info_mutates_counterexample :
    (checkRateLimit ⟨1, 10, 100000⟩ ⟨true, 0⟩ 120000 ⟨1, 10, 100000⟩
      (checkRateLimit ⟨1, 10, 100000⟩ ⟨true, 0⟩ 60001 ⟨1, 10, 100000⟩
        (getRateLimitInfo ⟨1, 10, 100000⟩ 60000
          (checkRateLimit ⟨1, 10, 100000⟩ ⟨true, 0⟩ 0 ⟨1, 10, 100000⟩
            (createInitialState 0)).2.2).2).2.2).1 = true ∧
    (checkRateLimit ⟨1, 10, 100000⟩ ⟨true, 0⟩ 120000 ⟨1, 10, 100000⟩
      (checkRateLimit ⟨1, 10, 100000⟩ ⟨true, 0⟩ 60001 ⟨1, 10, 100000⟩
        (checkRateLimit ⟨1, 10, 100000⟩ ⟨true, 0⟩ 0 ⟨1, 10, 100000⟩
          (createInitialState 0)).2.2).2.2).1 = false := by
  constructor <;>
    norm_num [checkRateLimit, resetCounters, adjustLimits, getRateLimitInfo,
      createInitialState]

/-- C9 (amended): `getRateLimitInfo(service)` mutates the limiter state
exactly as `checkRateLimit`'s initial `resetCounters` step does (it resets
the expired window/burst counters, clears an elapsed cooldown and moves the
window start times) and performs no other mutation; consequently a
`checkRateLimit` made at the same timestamp returns the same result, new
limits and new state as it would have without the preceding info call —
but, as the counterexample shows, the shifted window boundaries can change
the outcome of checks made at *later* timestamps. -/
theorem c9_info_same_instant_check (base current : RateLimitConfig)
    (h : HealthSnapshot) (now : ℚ) (s : RateLimitState) :
    (getRateLimitInfo current now s).2 = resetCounters now s ∧
    checkRateLimit base h now current (getRateLimitInfo current now s).2
      = checkRateLimit base h now current s := by
  refine ⟨rfl, ?_⟩
  show checkRateLimit base h now current (resetCounters now s)
    = checkRateLimit base h now current s
  simp only [checkRateLimit, resetCounters_idem]

theorem adjustLimits_unhealthy (h : HealthSnapshot) (base current : RateLimitConfig)
    (hh : h.healthy = false) :
    adjustLimits h base current =
      ⟨current.maxRequestsPerMinute / 2, current.burstLimit / 2,
        current.cooldownPeriod * 2⟩ := by
  simp [adjustLimits, hh]

theorem adjustLimits_highLatency (h : HealthSnapshot) (base current : RateLimitConfig)
    (hh : h.healthy = true) (hl : 2000 < h.averageLatency) :
    adjustLimits h base current =
      ⟨current.maxRequestsPerMinute * 4 / 5, current.burstLimit * 4 / 5,
        current.cooldownPeriod * 2⟩ := by
  simp [adjustLimits, hh, hl]

theorem adjustLimits_healthy (h : HealthSnapshot) (base current : RateLimitConfig)
    (hh : h.healthy = true) (hl : h.averageLatency ≤ 2000) :
    adjustLimits h base current = base := by
  simp [adjustLimits, hh, not_lt.mpr hl]

theorem checkRateLimit_limits (base : RateLimitConfig) (h : HealthSnapshot)
    (now : ℚ) (current : RateLimitConfig) (s : RateLimitState) :
    (checkRateLimit base h now current s).2.1 = adjustLimits h base current := by
  simp only [checkRateLimit]
  split_ifs <;> rfl

/-- C1 (counterexample): the effective config is NOT recomputed from the
fixed base config and the current health snapshot alone.  Base `openai`
config (60/min), service unhealthy: after the first `checkRateLimit` the
stored limits are `floor(60 * 0.5) = 30`, and the second check scales the
*stored* limits again, yielding `floor(30 * 0.5) = 15` — not the `30` the
claim predicts for any number of checks while unhealthy (one application
of the 0.5 factor to the base). -/
theorem c1_compounding_counterexample :
    (checkSeq openaiDefault ⟨false, 0⟩ 0 2 openaiDefault
        (createInitialState 0)).1.maxRequestsPerMinute = 15 ∧
    ¬(checkSeq openaiDefault ⟨false, 0⟩ 0 2 openaiDefault
        (createInitialState 0)).1.maxRequestsPerMinute = 30 := by
  constructor <;>
    norm_num [checkSeq, checkRateLimit, resetCounters, adjustLimits,
      createInitialState, openaiDefault]

/-- C1 (amended): on every check `adjustLimits` recomputes the effective
config from the *currently stored* (not base) config: if unhealthy it
halves `maxRequestsPerMinute`/`burstLimit` (with floor) and doubles
`cooldownPeriodMs`; if healthy with `averageLatencyMs > 2000` it scales the
stored limits by 0.8 (floor) and also doubles `cooldownPeriodMs` (the
cooldown is not left unchanged); only in the healthy low-latency case is
the base config restored exactly.  Hence `n` consecutive checks while
unhealthy compound the reduction: the stored limits become
`base / 2^n` (iterated floor) with cooldown `base * 2^n`. -/
theorem c1_effective_limits_compound (base current : RateLimitConfig)
    (h : HealthSnapshot) (t : ℚ) :
    (h.healthy = false →
      adjustLimits h base current =
        ⟨current.maxRequestsPerMinute / 2, current.burstLimit / 2,
          current.cooldownPeriod * 2⟩) ∧
    (h.healthy = true → 2000 < h.averageLatency →
      adjustLimits h base current =
        ⟨current.maxRequestsPerMinute * 4 / 5, current.burstLimit * 4 / 5,
          current.cooldownPeriod * 2⟩) ∧
    (h.healthy = true → h.averageLatency ≤ 2000 →
      adjustLimits h base current = base) ∧
    (h.healthy = false → ∀ (n : ℕ) (s : RateLimitState),
      (checkSeq base h t n current s).1.maxRequestsPerMinute
          = current.maxRequestsPerMinute / 2 ^ n ∧
      (checkSeq base h t n current s).1.burstLimit
          = current.burstLimit / 2 ^ n ∧
      (checkSeq base h t n current s).1.cooldownPeriod
          = current.cooldownPeriod * 2 ^ n) := by
  refine ⟨adjustLimits_unhealthy h base current,
    adjustLimits_highLatency h base current,
    adjustLimits_healthy h base current, ?_⟩
  intro hh n
  induction n generalizing current with
  | zero => intro s; simp [checkSeq]
  | succ n ih =>
      intro s
      have hstep : (checkRateLimit base h t current s).2.1 =
          ⟨current.maxRequestsPerMinute / 2, current.burstLimit / 2,
            current.cooldownPeriod * 2⟩ := by
        rw [checkRateLimit_limits]
        exact adjustLimits_unhealthy h base current hh
      simp only [checkSeq, hstep]
      obtain ⟨i1, i2, i3⟩ := ih
        (⟨current.maxRequestsPerMinute / 2, current.burstLimit / 2,
          current.cooldownPeriod * 2⟩ : RateLimitConfig)
        ((checkRateLimit base h t current s).2.2)
      refine ⟨?_, ?_, ?_⟩
      · rw [i1]
        simp only [Nat.div_div_eq_div_mul, pow_succ]
        ring_nf
      · rw [i2]
        simp only [Nat.div_div_eq_div_mul, pow_succ]
        ring_nf
      · rw [i3]
        rw [pow_succ]
        ring

/-- C1 (witness): two consecutive unhealthy checks from the `openai`
defaults leave `maxRequestsPerMinute = 60 / 2^2 = 15` and
`cooldownPeriod = 60000 * 2^2`. -/
theorem c1_effective_limits_compound_witness :
    (checkSeq openaiDefault ⟨false, 0⟩ 0 2 openaiDefault
        (createInitialState 0)).1.burstLimit = 10 / 2 ^ 2 ∧
    (checkSeq openaiDefault ⟨false, 0⟩ 0 2 openaiDefault
        (createInitialState 0)).1.cooldownPeriod = 60000 * 2 ^ 2 := by
  have h := (c1_effective_limits_compound openaiDefault openaiDefault
    ⟨false, 0⟩ 0).2.2.2 rfl 2 (createInitialState 0)
  exact ⟨h.2.1, h.2.2⟩

/-- C3 (counterexample): the post-cooldown clause fails for short cooldown
periods.  Base config `{2/min, burst 10, cooldown 1000ms}`, healthy service,
fresh window at t=0: three checks at t=0 give true, true, false with
`cooldownUntil = 0 + 1000`.  The next check at t=1001 — strictly after
`cooldownUntil` has passed — clears the throttle but the 60s window (started
at t=0) has NOT elapsed, so `requests = 2 ≥ 2` immediately re-throttles and
the call returns `false`, not the `true` the claim predicts for every
cooldown duration. -/
theorem c3_post_cooldown_counterexample :
    ((checkRateLimit ⟨2, 10, 1000⟩ ⟨true, 0⟩ 0 ⟨2, 10, 1000⟩
      (checkRateLimit ⟨2, 10, 1000⟩ ⟨true, 0⟩ 0 ⟨2, 10, 1000⟩
        (checkRateLimit ⟨2, 10, 1000⟩ ⟨true, 0⟩ 0 ⟨2, 10, 1000⟩
          (createInitialState 0)).2.2).2.2).2.2).cooldownUntil = 1000 ∧
    (checkRateLimit ⟨2, 10, 1000⟩ ⟨true, 0⟩ 1001 ⟨2, 10, 1000⟩
      (checkRateLimit ⟨2, 10, 1000⟩ ⟨true, 0⟩ 0 ⟨2, 10, 1000⟩
        (checkRateLimit ⟨2, 10, 1000⟩ ⟨true, 0⟩ 0 ⟨2, 10, 1000⟩
          (checkRateLimit ⟨2, 10, 1000⟩ ⟨true, 0⟩ 0 ⟨2, 10, 1000⟩
            (createInitialState 0)).2.2).2.2).2.2).1 = false := by
  constructor <;>
    norm_num [checkRateLimit, resetCounters, adjustLimits, createInitialState]

/-- C3 (amended): for a service whose effective `maxRequestsPerMinute` is 2
(base `{2, b, cp}` with `b ≥ 2`, healthy snapshot with latency ≤ 2000 so
the effective config is the base) starting from a fresh window at time `t`:
the 1st and 2nd `checkRateLimit` calls return true; the 3rd returns false,
sets the throttle and sets `cooldownUntil = t + cp`; and the first call at
a time `t4` that is both past `cooldownUntil` (`t + cp ≤ t4`) AND past the
60s window (`60000 ≤ t4 - t`) returns true with the window counters reset
(the unqualified "after the cooldown the next call succeeds" of the
original claim is false — the 60s window must also have elapsed, see the
counterexample). -/
theorem c3_fresh_window_sequence (b cp : ℕ) (hb : 2 ≤ b) (h : HealthSnapshot)
    (hh : h.healthy = true) (hl : h.averageLatency ≤ 2000) (t t4 : ℚ)
    (hcool : t + (cp : ℚ) ≤ t4) (hwin : 60000 ≤ t4 - t) :
    (checkRateLimit ⟨2, b, cp⟩ h t ⟨2, b, cp⟩ (createInitialState t)).1
        = true ∧
    (checkRateLimit ⟨2, b, cp⟩ h t ⟨2, b, cp⟩
      (checkRateLimit ⟨2, b, cp⟩ h t ⟨2, b, cp⟩
        (createInitialState t)).2.2).1 = true ∧
    (checkRateLimit ⟨2, b, cp⟩ h t ⟨2, b, cp⟩
      (checkRateLimit ⟨2, b, cp⟩ h t ⟨2, b, cp⟩
        (checkRateLimit ⟨2, b, cp⟩ h t ⟨2, b, cp⟩
          (createInitialState t)).2.2).2.2).1 = false ∧
    ((checkRateLimit ⟨2, b, cp⟩ h t ⟨2, b, cp⟩
      (checkRateLimit ⟨2, b, cp⟩ h t ⟨2, b, cp⟩
        (checkRateLimit ⟨2, b, cp⟩ h t ⟨2, b, cp⟩
          (createInitialState t)).2.2).2.2).2.2).isThrottled = true ∧
    ((checkRateLimit ⟨2, b, cp⟩ h t ⟨2, b, cp⟩
      (checkRateLimit ⟨2, b, cp⟩ h t ⟨2, b, cp⟩
        (checkRateLimit ⟨2, b, cp⟩ h t ⟨2, b, cp⟩
          (createInitialState t)).2.2).2.2).2.2).cooldownUntil
        = t + (cp : ℚ) ∧
    (checkRateLimit ⟨2, b, cp⟩ h t4 ⟨2, b, cp⟩
      (checkRateLimit ⟨2, b, cp⟩ h t ⟨2, b, cp⟩
        (checkRateLimit ⟨2, b, cp⟩ h t ⟨2, b, cp⟩
          (checkRateLimit ⟨2, b, cp⟩ h t ⟨2, b, cp⟩
            (createInitialState t)).2.2).2.2).2.2).1 = true ∧
    ((checkRateLimit ⟨2, b, cp⟩ h t4 ⟨2, b, cp⟩
      (checkRateLimit ⟨2, b, cp⟩ h t ⟨2, b, cp⟩
        (checkRateLimit ⟨2, b, cp⟩ h t ⟨2, b, cp⟩
          (checkRateLimit ⟨2, b, cp⟩ h t ⟨2, b, cp⟩
            (createInitialState t)).2.2).2.2).2.2).2.2).requests = 1 ∧
    ((checkRateLimit ⟨2, b, cp⟩ h t4 ⟨2, b, cp⟩
      (checkRateLimit ⟨2, b, cp⟩ h t ⟨2, b, cp⟩
        (checkRateLimit ⟨2, b, cp⟩ h t ⟨2, b, cp⟩
          (checkRateLimit ⟨2, b, cp⟩ h t ⟨2, b, cp⟩
            (createInitialState t)).2.2).2.2).2.2).2.2).isThrottled = false := by
  have hadj : adjustLimits h ⟨2, b, cp⟩ ⟨2, b, cp⟩ = ⟨2, b, cp⟩ :=
    adjustLimits_healthy h _ _ hh hl
  have hb1 : ¬b ≤ 1 := by omega
  have hb0 : ¬b = 0 := by omega
  have e1 : checkRateLimit ⟨2, b, cp⟩ h t ⟨2, b, cp⟩ (createInitialState t)
      = (true, ⟨2, b, cp⟩, ⟨1, t, 1, t, false, 0⟩) := by
    norm_num [checkRateLimit, resetCounters, createInitialState, hadj, hb1, hb0]
  have e2 : checkRateLimit ⟨2, b, cp⟩ h t ⟨2, b, cp⟩ ⟨1, t, 1, t, false, 0⟩
      = (true, ⟨2, b, cp⟩, ⟨2, t, 2, t, false, 0⟩) := by
    norm_num [checkRateLimit, resetCounters, hadj, hb1, hb0]
  have e3 : checkRateLimit ⟨2, b, cp⟩ h t ⟨2, b, cp⟩ ⟨2, t, 2, t, false, 0⟩
      = (false, ⟨2, b, cp⟩, ⟨2, t, 2, t, true, t + (cp : ℚ)⟩) := by
    norm_num [checkRateLimit, resetCounters, hadj, hb1]
  have hwin1000 : (1000 : ℚ) ≤ t4 - t := by linarith
  have e4 : checkRateLimit ⟨2, b, cp⟩ h t4 ⟨2, b, cp⟩
      ⟨2, t, 2, t, true, t + (cp : ℚ)⟩
      = (true, ⟨2, b, cp⟩, ⟨1, t4, 1, t4, false, t + (cp : ℚ)⟩) := by
    have hbb : ¬b ≤ 0 := by omega
    norm_num [checkRateLimit, resetCounters, hadj, hwin, hwin1000, hcool, hbb]
  rw [e1, e2, e3, e4]
  norm_num

/-- C3 (witness): base `{2, 10, 60000}` at t=0, fourth call at t=60000
(which is ≥ `cooldownUntil = 60000` and 60000ms after the window start):
the sequence is true, true, false — with `cooldownUntil = 60000` — then
true with the window counters reset to 1 after the admitted call. -/
theorem c3_fresh_window_sequence_witness :
    (checkRateLimit ⟨2, 10, 60000⟩ ⟨true, 0⟩ 0 ⟨2, 10, 60000⟩
        (createInitialState 0)).1 = true ∧
    (checkRateLimit ⟨2, 10, 60000⟩ ⟨true, 0⟩ 60000 ⟨2, 10, 60000⟩
      (checkRateLimit ⟨2, 10, 60000⟩ ⟨true, 0⟩ 0 ⟨2, 10, 60000⟩
        (checkRateLimit ⟨2, 10, 60000⟩ ⟨true, 0⟩ 0 ⟨2, 10, 60000⟩
          (checkRateLimit ⟨2, 10, 60000⟩ ⟨true, 0⟩ 0 ⟨2, 10, 60000⟩
            (createInitialState 0)).2.2).2.2).2.2).1 = true := by
  have h := c3_fresh_window_sequence 10 60000 (by norm_num) ⟨true, 0⟩ rfl
    (by norm_num) 0 60000 (by norm_num) (by norm_num)
  exact ⟨h.1, h.2.2.2.2.2.1⟩

/-- C7 (confirmed): `initialize()` runs the two dependency initializers
sequentially and the first failure aborts the sequence: if the vector store
fails, its flag is false, the documentation flag is untouched, the error
propagates and no sweep starts; if the vector store succeeds and
documentation fails, the vector-store flag stays true, the documentation
flag is false, the error propagates and no sweep starts; only when both
succeed are both flags true, no error propagates and the periodic health
sweep is started. -/
theorem c7_first_failure_aborts (s : SMState) (vsOk docOk : Bool) :
    (vsOk = false →
      (initServices s vsOk docOk).state.vectorStore = false ∧
      (initServices s vsOk docOk).state.documentation = s.documentation ∧
      (initServices s vsOk docOk).errored = true ∧
      (initServices s vsOk docOk).sweepStarted = false) ∧
    (vsOk = true → docOk = false →
      (initServices s vsOk docOk).state.vectorStore = true ∧
      (initServices s vsOk docOk).state.documentation = false ∧
      (initServices s vsOk docOk).errored = true ∧
      (initServices s vsOk docOk).sweepStarted = false) ∧
    (vsOk = true → docOk = true →
      (initServices s vsOk docOk).state.vectorStore = true ∧
      (initServices s vsOk docOk).state.documentation = true ∧
      (initServices s vsOk docOk).errored = false ∧
      (initServices s vsOk docOk).sweepStarted = true) := by
  cases vsOk <;> cases docOk <;>
    simp [initServices, initVectorStore, initDocumentation]

/-- C7 (witness): vector store succeeds, documentation fails: the
vector-store flag remains `true`, documentation is `false`, the error
propagates and the sweep is not started. -/
theorem c7_first_failure_aborts_witness :
    (initServices smInitial true false).state.vectorStore = true ∧
    (initServices smInitial true false).state.documentation = false ∧
    (initServices smInitial true false).errored = true ∧
    (initServices smInitial true false).sweepStarted = false :=
  (c7_first_failure_aborts smInitial true false).2.1 rfl rfl

/-- C4 (counterexample): re-`initialize()` does NOT re-enable automatic
recovery.  Take the state with `retryCount = 3` (exhausted); a fully
successful `initialize()` leaves `retryCount` at 3 (no code path in
`initialize`/`initializeVectorStore`/`initializeDocumentation` writes
`retryCount`), and the next sweep's `attemptServiceRecovery` still bails
out without attempting recovery — contradicting the claim that after an
explicit re-`initialize()` automatic recovery attempts are possible again. -/
theorem c4_reinit_counterexample :
    (initServices ⟨true, true, 3, none⟩ true true).state.retryCount = 3 ∧
    (attemptServiceRecovery (initServices ⟨true, true, 3, none⟩ true true).state
        Svc.vectorStore true).2 = false ∧
    ¬(attemptServiceRecovery (initServices ⟨true, true, 3, none⟩ true true).state
        Svc.vectorStore true).2 = true := by
  refine ⟨rfl, rfl, by decide⟩

/-- C4 (amended): once the shared `retryCount` has reached `maxRetries`
(3), every `attemptServiceRecovery` call — for any service and any
collaborator outcome — logs and returns without invoking the collaborator
and without changing any state (so exhaustion persists across sweeps);
`initialize()` never changes `retryCount`, so recovery stays disabled even
after a successful re-`initialize()`; only `shutdown()` (which resets the
lifecycle state to its initial value) returns `retryCount` to 0 and thereby
re-enables automatic recovery. -/
theorem c4_exhaustion_persists (s : SMState) (hr : maxRetries ≤ s.retryCount) :
    (∀ (svc : Svc) (ok : Bool), attemptServiceRecovery s svc ok = (s, false)) ∧
    (∀ vsOk docOk : Bool,
      (initServices s vsOk docOk).state.retryCount = s.retryCount) ∧
    (∀ (svc : Svc) (ok vsOk docOk : Bool),
      attemptServiceRecovery (initServices s vsOk docOk).state svc ok
        = ((initServices s vsOk docOk).state, false)) ∧
    (∀ (now : ℚ) (p : ProcState), (shutdownProc now p).sm.retryCount = 0) := by
  have hinit : ∀ vsOk docOk : Bool,
      (initServices s vsOk docOk).state.retryCount = s.retryCount := by
    intro vsOk docOk
    cases vsOk <;> cases docOk <;>
      simp [initServices, initVectorStore, initDocumentation]
  refine ⟨?_, hinit, ?_, ?_⟩
  · intro svc ok
    simp [attemptServiceRecovery, hr]
  · intro svc ok vsOk docOk
    have hr2 : maxRetries ≤ (initServices s vsOk docOk).state.retryCount := by
      rw [hinit]; exact hr
    simp [attemptServiceRecovery, hr2]
  · intro now p
    simp [shutdownProc, smInitial]

/-- C4 (witness): at `retryCount = 3` the recovery attempt for the
documentation service is skipped outright. -/
theorem c4_exhaustion_persists_witness :
    attemptServiceRecovery ⟨false, false, 3, none⟩ Svc.documentation true
      = (⟨false, false, 3, none⟩, false) :=
  (c4_exhaustion_persists ⟨false, false, 3, none⟩ (by decide)).1
    Svc.documentation true

/-- C8 (counterexample): `shutdown()` does not reset the other process-wide
entities.  Take a process state whose `openai` telemetry metrics record one
successful call and whose rate-limiter state is throttled: after
`shutdown()` the metrics and limiter state are untouched (not their initial
values), and a second `shutdown()` is not observationally a no-op — it
appends another info event to the telemetry buffer (observable through
`getServiceHealth().recentEvents`). -/
theorem c8_shutdown_counterexample :
    (shutdownProc 0 ⟨smInitial, false, fun _ => ⟨1, 1, 0, 0, none, none⟩,
        fun _ => openaiDefault, fun _ => ⟨5, 0, 0, 0, true, 99⟩, []⟩).metrics
        Svc.openai = ⟨1, 1, 0, 0, none, none⟩ ∧
    ¬(shutdownProc 0 ⟨smInitial, false, fun _ => ⟨1, 1, 0, 0, none, none⟩,
        fun _ => openaiDefault, fun _ => ⟨5, 0, 0, 0, true, 99⟩, []⟩).metrics
        Svc.openai = initMetrics ∧
    (shutdownProc 0 ⟨smInitial, false, fun _ => ⟨1, 1, 0, 0, none, none⟩,
        fun _ => openaiDefault, fun _ => ⟨5, 0, 0, 0, true, 99⟩, []⟩).limiterState
        Svc.openai = ⟨5, 0, 0, 0, true, 99⟩ ∧
    (shutdownProc 1 (shutdownProc 0 ⟨smInitial, false,
        fun _ => ⟨1, 1, 0, 0, none, none⟩, fun _ => openaiDefault,
        fun _ => ⟨5, 0, 0, 0, true, 99⟩, []⟩)).events.length = 2 := by
  refine ⟨rfl, ?_, rfl, rfl⟩
  intro hcon
  have := congrArg ServiceMetrics.totalCalls hcon
  simp [shutdownProc, initMetrics] at this

/-- C8 (amended): `shutdown()` cancels the health sweep and resets the
lifecycle state (readiness flags, `retryCount`, `lastError`) to its initial
value, but leaves the telemetry metrics, the rate limiter's limits and
state untouched; a repeated `shutdown()` leaves the lifecycle state, sweep
flag, metrics and limiter state unchanged (idempotent on those components)
but appends one more log event to the telemetry buffer. -/
theorem c8_shutdown_lifecycle_only (now now2 : ℚ) (p : ProcState) :
    (shutdownProc now p).sm = smInitial ∧
    (shutdownProc now p).sweepActive = false ∧
    (shutdownProc now p).metrics = p.metrics ∧
    (shutdownProc now p).limiterLimits = p.limiterLimits ∧
    (shutdownProc now p).limiterState = p.limiterState ∧
    (shutdownProc now2 (shutdownProc now p)).sm = (shutdownProc now p).sm ∧
    (shutdownProc now2 (shutdownProc now p)).sweepActive
        = (shutdownProc now p).sweepActive ∧
    (shutdownProc now2 (shutdownProc now p)).metrics = p.metrics ∧
    (shutdownProc now2 (shutdownProc now p)).limiterState = p.limiterState ∧
    (shutdownProc now2 (shutdownProc now p)).events
        = logEvent ⟨now2, 2, 1, 0⟩ (shutdownProc now p).events := by
  refine ⟨rfl, rfl, rfl, rfl, rfl, rfl, rfl, rfl, rfl, rfl⟩

end BlankAI
